import Mathlib

/-!
Verification of the Sycamore wallet backend (idempotent transfers and
daily interest accrual) against its natural-language specification.

The TypeScript source is shallowly embedded:
* `decimal.js` values are modelled as exact rationals (`ℚ`).  The source
  configures decimal.js with 20 significant digits for intermediate values,
  far above anything the 4-decimal-place stored amounts need, so exact
  rational arithmetic is a faithful model at the claims' granularity.
* `Decimal#toFixed(n)` with the configured `ROUND_HALF_UP` mode (round half
  away from zero) is modelled by explicit integer rounding at `10^n`.
* Database tables are lists of records; sequelize queries (`findOne`,
  `findByPk`, `update ... where`) are list traversals; a `sequelize.transaction`
  is a function from database state to either a new state (commit) or an
  error (rollback: the caller keeps the pre-transaction state).
* The redis coordination cache is a list of key/result pairs plus a set of
  held lock keys.
-/

namespace Sycamore

/-- Round half away from zero to an integer: the integer rounding used by
decimal.js `ROUND_HALF_UP` (which rounds halves away from zero). -/
def roundHalfAwayFromZero (q : ℚ) : ℤ :=
  if 0 ≤ q then ⌊q + 1/2⌋ else -⌊-q + 1/2⌋

namespace FinancialMath

/-- Embeds `FinancialMath.toFixed(value)` / `Decimal#toFixed(4)`
(src/utils/financial-math.ts line 185): format with exactly 4 fractional
digits, rounding half away from zero.  We keep the value as the rational it
denotes. -/
def toFixed4 (q : ℚ) : ℚ :=
  (roundHalfAwayFromZero (q * 10000) : ℚ) / 10000

/-- Embeds `dailyRate.toFixed(10)` (interest.service.ts line 62): 10
fractional digits, rounding half away from zero. -/
def toFixed10 (q : ℚ) : ℚ :=
  (roundHalfAwayFromZero (q * 10000000000) : ℚ) / 10000000000

/-- Embeds `FinancialMath.isLeapYear` (financial-math.ts line 22):
`(year % 4 === 0 && year % 100 !== 0) || (year % 400 === 0)`. -/
def isLeapYear (year : ℕ) : Bool :=
  (year % 4 == 0 && year % 100 != 0) || (year % 400 == 0)

/-- Embeds `FinancialMath.getDaysInYear` (financial-math.ts line 30):
`isLeapYear(year) ? 366 : 365`. -/
def getDaysInYear (year : ℕ) : ℕ :=
  if isLeapYear year then 366 else 365

/-- Embeds `FinancialMath.calculateDailyRate` (financial-math.ts line 39):
`annual.dividedBy(days)`. -/
def calculateDailyRate (annualRate : ℚ) (daysInYear : ℕ) : ℚ :=
  annualRate / daysInYear

/-- Embeds `FinancialMath.calculateDailyInterest` (financial-math.ts
line 51): `principal × (annualRate / daysInYear)`. -/
def calculateDailyInterest (principal annualRate : ℚ) (daysInYear : ℕ) : ℚ :=
  principal * calculateDailyRate annualRate daysInYear

/-- Embeds `FinancialMath.isGreaterThan` (financial-math.ts line 134). -/
def isGreaterThan (a b : ℚ) : Bool := a > b

/-- Embeds `FinancialMath.isZero` (financial-math.ts line 160). -/
def isZero (a : ℚ) : Bool := a == 0

/-- Embeds `FinancialMath.isNegative` (financial-math.ts line 168). -/
def isNegative (a : ℚ) : Bool := a < 0

end FinancialMath

/-- A value representable with 4 fractional decimal digits, i.e. an integer
multiple of `1/10000`.  All balances and amounts stored through
`toFixed(4)` have this shape. -/
def IsMul4dp (q : ℚ) : Prop := ∃ n : ℤ, q = (n : ℚ) / 10000

/-- A calendar date, as used by the interest engine (the source formats
`Date` values to `YYYY-MM-DD` via `toISOString().split('T')[0]`; only the
calendar day matters to the embedded code, so we model dates as day
triples). -/
structure Date where
  year : ℕ
  month : ℕ
  day : ℕ
deriving DecidableEq, Repr

/-- Days in a calendar month of the proleptic Gregorian calendar, as
implemented by the JavaScript `Date` rollover used in
`currentDate.setDate(currentDate.getDate() + 1)`. -/
def Date.daysInMonth (year month : ℕ) : ℕ :=
  if month = 2 then (if FinancialMath.isLeapYear year then 29 else 28)
  else if month = 4 ∨ month = 6 ∨ month = 9 ∨ month = 11 then 30
  else 31

/-- The next calendar day: embeds
`currentDate.setDate(currentDate.getDate() + 1)` (interest.service.ts
line 92), which rolls over month and year boundaries. -/
def Date.nextDay (d : Date) : Date :=
  if d.day < Date.daysInMonth d.year d.month then
    { d with day := d.day + 1 }
  else if d.month < 12 then
    { year := d.year, month := d.month + 1, day := 1 }
  else
    { year := d.year + 1, month := 1, day := 1 }

/-- Embeds the `InterestCalculationResult` interface
(interest.service.ts lines 11-20). -/
structure InterestCalculationResult where
  walletId : String
  principalAmount : ℚ
  interestAmount : ℚ
  dailyRate : ℚ
  annualRate : ℚ
  daysInYear : ℕ
  isLeapYear : Bool
  accrualDate : Date
deriving DecidableEq, Repr

namespace InterestService

/-- Embeds `InterestService.calculateDailyInterest(principal, date)`
(interest.service.ts lines 47-68).  The service's annual rate (a
constructor argument, `config.annualInterestRate` by default) is passed
explicitly. -/
def calculateDailyInterest (annualRate principal : ℚ) (date : Date) :
    InterestCalculationResult :=
  let year := date.year
  let isLeapYear := FinancialMath.isLeapYear year
  let daysInYear := FinancialMath.getDaysInYear year
  let dailyRate := FinancialMath.calculateDailyRate annualRate daysInYear
  let interestAmount := FinancialMath.calculateDailyInterest principal annualRate daysInYear
  { walletId := ""
    principalAmount := FinancialMath.toFixed4 principal
    interestAmount := FinancialMath.toFixed4 interestAmount
    dailyRate := FinancialMath.toFixed10 dailyRate
    annualRate := annualRate
    daysInYear := daysInYear
    isLeapYear := isLeapYear
    accrualDate := date }

/-- The day-by-day loop of `InterestService.calculateInterestForDays`
(interest.service.ts lines 86-93): one independently dated
`calculateDailyInterest` result per day, advancing the date each
iteration. -/
def dailyBreakdownAux (annualRate principal : ℚ) : ℕ → Date → List InterestCalculationResult
  | 0, _ => []
  | n + 1, d =>
      calculateDailyInterest annualRate principal d ::
        dailyBreakdownAux annualRate principal n (Date.nextDay d)

/-- Embeds the return value of `InterestService.calculateInterestForDays`
(interest.service.ts lines 76-99): the loop above, plus
`totalInterest = toFixed(Σ dailyBreakdown[i].interestAmount)` (the source
accumulates with `Decimal#plus`, which is exact rational addition). -/
def calculateInterestForDays (annualRate principal : ℚ) (days : ℕ) (startDate : Date) :
    ℚ × List InterestCalculationResult :=
  let dailyBreakdown := dailyBreakdownAux annualRate principal days startDate
  (FinancialMath.toFixed4 ((dailyBreakdown.map (·.interestAmount)).sum), dailyBreakdown)

end InterestService

/-! String helpers.  JavaScript's `trim` and the default `Array#sort`
comparison are modelled on the underlying character lists (Lean's built-in
`String.trim` / `String.le` are semantically identical here but are defined
by well-founded recursion, which blocks kernel evaluation). -/

/-- Embeds JavaScript `String.prototype.trim`: strip leading and trailing
whitespace. -/
def trimChars (s : List Char) : List Char :=
  ((s.dropWhile Char.isWhitespace).reverse.dropWhile Char.isWhitespace).reverse

/-- Lexicographic comparison of strings by code unit, as used by the default
JavaScript `Array#sort` comparator. -/
def strLt : List Char → List Char → Bool
  | [], [] => false
  | [], _ :: _ => true
  | _ :: _, [] => false
  | a :: as, b :: bs =>
      if a.toNat < b.toNat then true
      else if b.toNat < a.toNat then false
      else strLt as bs

/-- Embeds `[fromWalletId, toWalletId].sort()` (transfer.service.ts line 83):
the two-element ascending sort. -/
def jsSortPair (a b : String) : List String :=
  if strLt b.data a.data then [b, a] else [a, b]

/-- Embeds the coordination lock key
`transfer:` + sorted pair joined with `:` (transfer.service.ts line 83). -/
def lockKey (a b : String) : String :=
  "transfer:" ++ String.intercalate ":" (jsSortPair a b)

/-! Ledger data model (src/src/models). -/

/-- Embeds `TransactionType` (models/TransactionLog.ts). -/
inductive TransactionType
  | TRANSFER
  | DEPOSIT
  | WITHDRAWAL
  | INTEREST
deriving DecidableEq, Repr

/-- Embeds `TransactionStatus` (models/TransactionLog.ts). -/
inductive TransactionStatus
  | PENDING
  | COMPLETED
  | FAILED
  | REVERSED
deriving DecidableEq, Repr

/-- Embeds `EntryType` (models/LedgerEntry.ts). -/
inductive EntryType
  | DEBIT
  | CREDIT
deriving DecidableEq, Repr

/-- Embeds the `Wallet` row (models/Wallet.ts): identity, 4-decimal balance,
active flag.  The fields not touched by the embedded logic (userId, currency,
timestamps) are omitted. -/
structure Wallet where
  id : String
  balance : ℚ
  isActive : Bool
deriving DecidableEq, Repr

/-- Embeds the `TransactionLog` row (models/TransactionLog.ts).  Row ids are
modelled as naturals drawn from a counter (the source uses UUIDs; only
freshness matters). -/
structure TransactionLog where
  id : ℕ
  idempotencyKey : String
  fromWalletId : Option String
  toWalletId : Option String
  amount : ℚ
  type : TransactionType
  status : TransactionStatus
  errorMessage : Option String
deriving DecidableEq, Repr

/-- Embeds the `LedgerEntry` row (models/LedgerEntry.ts). -/
structure LedgerEntry where
  transactionLogId : ℕ
  walletId : String
  entryType : EntryType
  amount : ℚ
  balanceBefore : ℚ
  balanceAfter : ℚ
deriving DecidableEq, Repr

/-- Embeds the `TransferResult` interface (transfer.service.ts lines 21-30).
Optional fields absent from a result are `none`. -/
structure TransferResult where
  success : Bool
  transactionId : Option ℕ
  status : TransactionStatus
  message : String
  fromBalance : Option ℚ
  toBalance : Option ℚ
  error : Option String
  isIdempotent : Option Bool
deriving DecidableEq, Repr

/-- Embeds the `TransferRequest` interface (transfer.service.ts lines 11-18).
A missing wallet id (JavaScript `undefined`, falsy) is modelled as the empty
string and a missing amount as `0`, which the source's falsiness checks treat
identically. -/
structure TransferRequest where
  idempotencyKey : String
  fromWalletId : String
  toWalletId : String
  amount : ℚ
deriving DecidableEq, Repr

/-- The relational store: the three tables touched by `transfer`, plus the id
counter for new `TransactionLog` rows. -/
structure DBState where
  wallets : List Wallet
  txLogs : List TransactionLog
  ledger : List LedgerEntry
  nextId : ℕ
deriving DecidableEq, Repr

/-- The full system state seen by `transfer`: the durable store plus the
redis coordination cache (idempotency results and held lock keys). -/
structure SysState where
  db : DBState
  idemCache : List (String × TransferResult)
  locks : List String
deriving DecidableEq, Repr

/-- Embeds `Wallet.findOne({ where: { id, isActive: true } })`
(transfer.service.ts lines 119-123 and 130-134). -/
def findActiveWallet : List Wallet → String → Option Wallet
  | [], _ => none
  | w :: rest, id =>
      if w.id = id ∧ w.isActive = true then some w else findActiveWallet rest id

/-- Embeds `TransactionLog.findOne({ where: { idempotencyKey } })`
(transfer.service.ts lines 66-68). -/
def findLogByKey : List TransactionLog → String → Option TransactionLog
  | [], _ => none
  | l :: rest, k => if l.idempotencyKey = k then some l else findLogByKey rest k

/-- Embeds `redisClient.getIdempotencyResult` (utils/redis.ts line 100): a
get on the idempotency cache. -/
def cacheGet : List (String × TransferResult) → String → Option TransferResult
  | [], _ => none
  | (k', v) :: rest, k => if k' = k then some v else cacheGet rest k

/-- Embeds a wallet-row balance update
(`fromWallet.update({ balance })`, transfer.service.ts lines 155-164). -/
def updateWalletBalance (ws : List Wallet) (id : String) (b : ℚ) : List Wallet :=
  ws.map fun w => if w.id = id then { w with balance := b } else w

/-- Embeds `transactionLog.update({ status: COMPLETED, completedAt })`
(transfer.service.ts lines 192-198). -/
def markLogCompleted (ls : List TransactionLog) (id : ℕ) : List TransactionLog :=
  ls.map fun l => if l.id = id then { l with status := .COMPLETED } else l

/-- Embeds `TransactionLog.update({ status: FAILED, errorMessage },
{ where: { id } })` (transfer.service.ts lines 226-232): updates whichever
rows currently match the id — zero rows if no such row exists. -/
def markLogFailedWhere (ls : List TransactionLog) (id : ℕ) (msg : String) :
    List TransactionLog :=
  ls.map fun l => if l.id = id then { l with status := .FAILED, errorMessage := some msg } else l

/-- Embeds `TransferService.validateTransferRequest`
(transfer.service.ts lines 262-292), in source order.  The leading falsiness
check `!idempotencyKey` is subsumed by the `trim().length === 0` check; the
falsy wallet-id and amount checks are the empty-string / zero checks under
this embedding's encoding of missing fields. -/
def validateTransferRequest (r : TransferRequest) : Option String :=
  if (trimChars r.idempotencyKey.data).length = 0 then some "Idempotency key is required"
  else if r.fromWalletId = "" then some "Source wallet ID is required"
  else if r.toWalletId = "" then some "Destination wallet ID is required"
  else if r.fromWalletId = r.toWalletId then some "Cannot transfer to the same wallet"
  else if r.amount = 0 then some "Amount is required"
  else if (FinancialMath.isNegative r.amount || FinancialMath.isZero r.amount) then
    some "Amount must be positive"
  else none

/-- Outcome of the `sequelize.transaction` callback: either a commit carrying
the new database state and the value returned by the callback, or a thrown
error (the transaction rolls back, so the caller keeps its pre-transaction
state). -/
inductive TxOutcome
  | ok (db : DBState) (result : TransferResult)
  | error (message : String)
deriving DecidableEq, Repr

/-- One run of the transfer's Phase-2 callback: the order in which wallet
rows were exclusively locked (`SELECT ... FOR UPDATE`), the id given to the
PENDING log row created inside the callback, and the outcome. -/
structure TxRun where
  rowLockOrder : List String
  logId : ℕ
  outcome : TxOutcome
deriving DecidableEq, Repr

/-- Embeds the `sequelize.transaction` callback of `TransferService.transfer`
(transfer.service.ts lines 100-209), step comments matching the source:

* 4.1 creates the PENDING `TransactionLog` row (inside this transaction);
* 4.2/4.3 fetch-and-lock the source wallet first, then the destination
  (a found row is locked and appended to `rowLockOrder`; a missing or
  inactive wallet throws);
* 4.4 throws on insufficient balance (`amount > balance`; the source
  interpolates the amounts into the message, which we abbreviate);
* 4.5-4.7 compute the new balances exactly and store them rounded to 4
  places.  Sequelize's `instance.update` also mutates the in-memory
  instance, so after 4.6/4.7 `fromWallet.balance` / `toWallet.balance`
  already hold the new balances — modelled by `fromWallet'` / `toWallet'`;
* 4.8 writes the DEBIT and CREDIT ledger entries, reading `balanceBefore`
  from the (already updated) instances;
* 4.9 flips the log row to COMPLETED. -/
def transferTxBody (req : TransferRequest) (db : DBState) : TxRun :=
  let logId := db.nextId
  let pendingLog : TransactionLog :=
    { id := logId
      idempotencyKey := req.idempotencyKey
      fromWalletId := some req.fromWalletId
      toWalletId := some req.toWalletId
      amount := FinancialMath.toFixed4 req.amount
      type := .TRANSFER
      status := .PENDING
      errorMessage := none }
  let db1 : DBState :=
    { db with txLogs := db.txLogs ++ [pendingLog], nextId := db.nextId + 1 }
  match findActiveWallet db1.wallets req.fromWalletId with
  | none =>
      { rowLockOrder := [], logId := logId,
        outcome := .error "Source wallet not found or inactive" }
  | some fromWallet =>
    match findActiveWallet db1.wallets req.toWalletId with
    | none =>
        { rowLockOrder := [req.fromWalletId], logId := logId,
          outcome := .error "Destination wallet not found or inactive" }
    | some toWallet =>
      if FinancialMath.isGreaterThan req.amount fromWallet.balance then
        { rowLockOrder := [req.fromWalletId, req.toWalletId], logId := logId,
          outcome := .error "Insufficient balance" }
      else
        let newFromBalance := fromWallet.balance - req.amount
        let newToBalance := toWallet.balance + req.amount
        let fromWallet' : Wallet := { fromWallet with balance := FinancialMath.toFixed4 newFromBalance }
        let toWallet' : Wallet := { toWallet with balance := FinancialMath.toFixed4 newToBalance }
        let db2 : DBState :=
          { db1 with
              wallets :=
                updateWalletBalance
                  (updateWalletBalance db1.wallets req.fromWalletId fromWallet'.balance)
                  req.toWalletId toWallet'.balance }
        let debit : LedgerEntry :=
          { transactionLogId := logId
            walletId := req.fromWalletId
            entryType := .DEBIT
            amount := FinancialMath.toFixed4 req.amount
            balanceBefore := fromWallet'.balance
            balanceAfter := FinancialMath.toFixed4 newFromBalance }
        let credit : LedgerEntry :=
          { transactionLogId := logId
            walletId := req.toWalletId
            entryType := .CREDIT
            amount := FinancialMath.toFixed4 req.amount
            balanceBefore := toWallet'.balance
            balanceAfter := FinancialMath.toFixed4 newToBalance }
        let db3 : DBState := { db2 with ledger := db2.ledger ++ [debit, credit] }
        let db4 : DBState := { db3 with txLogs := markLogCompleted db3.txLogs logId }
        { rowLockOrder := [req.fromWalletId, req.toWalletId]
          logId := logId
          outcome := .ok db4
            { success := true
              transactionId := some logId
              status := .COMPLETED
              message := "Transfer completed successfully"
              fromBalance := some (FinancialMath.toFixed4 newFromBalance)
              toBalance := some (FinancialMath.toFixed4 newToBalance)
              error := none
              isIdempotent := none } }

/-- Embeds `TransferService.transfer` (transfer.service.ts lines 44-257):
validation; idempotency fast path (redis cache, replay flagged); durable
fallback (`TransactionLog` by key, replay flagged); coordination lock on the
sorted wallet pair (failure returns the CONCURRENT_REQUEST conflict result
with status PENDING); then the Phase-2 transaction.  On commit the result is
cached and the lock released.  On a thrown error the transaction has rolled
back (dropping the PENDING row created inside it), the catch block issues
`TransactionLog.update ... where id` against the rolled-back row id, caches
the FAILED result, and the lock is released. -/
def transfer (req : TransferRequest) (s : SysState) : TransferResult × SysState :=
  match validateTransferRequest req with
  | some err =>
      ({ success := false, transactionId := none, status := .FAILED, message := err,
         fromBalance := none, toBalance := none, error := some err, isIdempotent := none }, s)
  | none =>
    match cacheGet s.idemCache req.idempotencyKey with
    | some cached => ({ cached with isIdempotent := some true }, s)
    | none =>
      match findLogByKey s.db.txLogs req.idempotencyKey with
      | some tx =>
          ({ success := tx.status == .COMPLETED, transactionId := some tx.id,
             status := tx.status, message := "Transaction already processed",
             fromBalance := none, toBalance := none, error := none,
             isIdempotent := some true }, s)
      | none =>
        let lk := lockKey req.fromWalletId req.toWalletId
        if lk ∈ s.locks then
          ({ success := false, transactionId := none, status := .PENDING,
             message := "Transfer is being processed. Please retry with the same idempotency key.",
             fromBalance := none, toBalance := none, error := some "CONCURRENT_REQUEST",
             isIdempotent := none }, s)
        else
          let run := transferTxBody req s.db
          match run.outcome with
          | .ok db' result =>
              (result,
               { db := db'
                 idemCache := (req.idempotencyKey, result) :: s.idemCache
                 locks := (lk :: s.locks).erase lk })
          | .error msg =>
              let db2 : DBState :=
                { s.db with txLogs := markLogFailedWhere s.db.txLogs run.logId msg }
              let failedResult : TransferResult :=
                { success := false, transactionId := some run.logId, status := .FAILED,
                  message := "Transfer failed", fromBalance := none, toBalance := none,
                  error := some msg, isIdempotent := none }
              (failedResult,
               { db := db2
                 idemCache := (req.idempotencyKey, failedResult) :: s.idemCache
                 locks := (lk :: s.locks).erase lk })

/-! Interest accrual state model (interest.service.ts lines 122-174). -/

/-- Embeds the `InterestAccrual` row (models/InterestAccrual.ts), the fields
the accrual step reads and writes. -/
structure InterestAccrualRow where
  walletId : String
  principalAmount : ℚ
  interestAmount : ℚ
  annualRate : ℚ
  dailyRate : ℚ
  accrualDate : Date
  daysInYear : ℕ
  isLeapYear : Bool
  isApplied : Bool
deriving DecidableEq, Repr

/-- State seen by the accrual step: the wallets table and the interest
accrual table. -/
structure InterestState where
  wallets : List Wallet
  accruals : List InterestAccrualRow
deriving DecidableEq, Repr

/-- Embeds `Wallet.findByPk(walletId)` (interest.service.ts line 126): lookup
by id with no active filter (activity is checked separately). -/
def findWalletByPk : List Wallet → String → Option Wallet
  | [], _ => none
  | w :: rest, id => if w.id = id then some w else findWalletByPk rest id

/-- Embeds `InterestAccrual.findOne({ where: { walletId, accrualDate } })`
(interest.service.ts lines 140-142). -/
def findAccrual : List InterestAccrualRow → String → Date → Option InterestAccrualRow
  | [], _, _ => none
  | a :: rest, wid, d =>
      if a.walletId = wid ∧ a.accrualDate = d then some a else findAccrual rest wid d

/-- The `InterestCalculationResult` view of a stored accrual row, as rebuilt
by the early-return branch of `accrueInterestForWallet`
(interest.service.ts lines 144-155). -/
def InterestAccrualRow.toResult (a : InterestAccrualRow) : InterestCalculationResult :=
  { walletId := a.walletId
    principalAmount := a.principalAmount
    interestAmount := a.interestAmount
    dailyRate := a.dailyRate
    annualRate := a.annualRate
    daysInYear := a.daysInYear
    isLeapYear := a.isLeapYear
    accrualDate := a.accrualDate }

/-- Embeds `InterestService.accrueInterestForWallet(walletId, date)`
(interest.service.ts lines 122-174): returns `null` for a missing or
inactive wallet or a zero/negative balance; returns the already-stored
record unchanged when one exists for (wallet, date); otherwise computes one
day's interest on the current balance and stores a new row with
`isApplied = false`. -/
def accrueInterestForWallet (annualRate : ℚ) (walletId : String) (date : Date)
    (s : InterestState) : Option InterestCalculationResult × InterestState :=
  match findWalletByPk s.wallets walletId with
  | none => (none, s)
  | some wallet =>
    if wallet.isActive = false then (none, s)
    else if (FinancialMath.isNegative wallet.balance || FinancialMath.isZero wallet.balance) then
      (none, s)
    else
      match findAccrual s.accruals walletId date with
      | some existing => (some existing.toResult, s)
      | none =>
          let calculation :=
            { InterestService.calculateDailyInterest annualRate wallet.balance date with
                walletId := walletId }
          let row : InterestAccrualRow :=
            { walletId := walletId
              principalAmount := calculation.principalAmount
              interestAmount := calculation.interestAmount
              annualRate := calculation.annualRate
              dailyRate := calculation.dailyRate
              accrualDate := calculation.accrualDate
              daysInYear := calculation.daysInYear
              isLeapYear := calculation.isLeapYear
              isApplied := false }
          (some calculation, { s with accruals := s.accruals ++ [row] })

/-! Concrete fixtures used to evaluate the embedded services. -/

/-- A fresh system state: active wallets w1 (balance 500) and w2 (balance
200), empty tables, empty idempotency cache, no held locks. -/
def demoState : SysState :=
  { db := { wallets := [{ id := "w1", balance := 500, isActive := true },
                        { id := "w2", balance := 200, isActive := true }]
            txLogs := [], ledger := [], nextId := 1 }
    idemCache := []
    locks := [] }

/-- Request k1: move 100 from w1 to w2. -/
def demoRequest : TransferRequest :=
  { idempotencyKey := "k1", fromWalletId := "w1", toWalletId := "w2", amount := 100 }

/-- A fresh system state where the source wallet holds 50 and the
destination 20. -/
def lowBalanceState : SysState :=
  { db := { wallets := [{ id := "w1", balance := 50, isActive := true },
                        { id := "w2", balance := 20, isActive := true }]
            txLogs := [], ledger := [], nextId := 1 }
    idemCache := []
    locks := [] }

/-- Request k2: move 100 from w1 to w2 (more than w1 holds in
`lowBalanceState`). -/
def overdraftRequest : TransferRequest :=
  { idempotencyKey := "k2", fromWalletId := "w1", toWalletId := "w2", amount := 100 }

/-- `demoState` with the coordination lock for the (w1, w2) pair already held
by another in-flight operation. -/
def lockedState : SysState :=
  { demoState with locks := [lockKey "w1" "w2"] }

/-- Wallet-pair fixture for lock-order analysis: active wallets a and b. -/
def pairDB : DBState :=
  { wallets := [{ id := "a", balance := 10, isActive := true },
                { id := "b", balance := 10, isActive := true }]
    txLogs := [], ledger := [], nextId := 1 }

/-- Request k3 in the reverse direction: from b to a. -/
def reverseRequest : TransferRequest :=
  { idempotencyKey := "k3", fromWalletId := "b", toWalletId := "a", amount := 1 }

/-- Request k4 in the forward direction: from a to b. -/
def forwardRequest : TransferRequest :=
  { idempotencyKey := "k4", fromWalletId := "a", toWalletId := "b", amount := 1 }

/-- An invalid request: blank idempotency key. -/
def blankKeyRequest : TransferRequest :=
  { idempotencyKey := " ", fromWalletId := "w1", toWalletId := "w2", amount := 100 }

/-- Accrual fixture: active wallet w1 with balance 1000, inactive wallet w3,
no accrual rows yet. -/
def accrualState : InterestState :=
  { wallets := [{ id := "w1", balance := 1000, isActive := true },
                { id := "w3", balance := 100, isActive := false }]
    accruals := [] }

/-! Basic facts about the 4-decimal-place rounding. -/

theorem roundHalfAwayFromZero_intCast (n : ℤ) :
    roundHalfAwayFromZero (n : ℚ) = n := by
  unfold roundHalfAwayFromZero
  split
  · rw [Int.floor_int_add]
    norm_num
  · rw [show -(n : ℚ) = ((-n : ℤ) : ℚ) by push_cast; ring, Int.floor_int_add]
    norm_num

theorem toFixed4_isMul4dp (q : ℚ) : IsMul4dp (FinancialMath.toFixed4 q) :=
  ⟨roundHalfAwayFromZero (q * 10000), rfl⟩

theorem toFixed4_eq_self {q : ℚ} (h : IsMul4dp q) : FinancialMath.toFixed4 q = q := by
  obtain ⟨n, rfl⟩ := h
  unfold FinancialMath.toFixed4
  rw [div_mul_cancel₀ _ (by norm_num : (10000 : ℚ) ≠ 0), roundHalfAwayFromZero_intCast]

theorem IsMul4dp.add {a b : ℚ} (ha : IsMul4dp a) (hb : IsMul4dp b) : IsMul4dp (a + b) := by
  obtain ⟨m, rfl⟩ := ha
  obtain ⟨n, rfl⟩ := hb
  exact ⟨m + n, by push_cast; ring⟩

theorem isMul4dp_sum {l : List ℚ} (h : ∀ q ∈ l, IsMul4dp q) : IsMul4dp l.sum := by
  induction l with
  | nil => exact ⟨0, by norm_num⟩
  | cons x xs ih =>
    rw [List.sum_cons]
    exact (h x (by simp)).add (ih fun q hq => h q (by simp [hq]))

/-! Structural lemmas about the day-by-day interest loop. -/

theorem mem_dailyBreakdownAux {rate P : ℚ} {n : ℕ} {d : Date}
    {r : InterestCalculationResult}
    (h : r ∈ InterestService.dailyBreakdownAux rate P n d) :
    ∃ d', r = InterestService.calculateDailyInterest rate P d' := by
  induction n generalizing d with
  | zero => simp [InterestService.dailyBreakdownAux] at h
  | succ k ih =>
    rw [InterestService.dailyBreakdownAux] at h
    rcases List.mem_cons.mp h with h1 | h2
    · exact ⟨d, h1⟩
    · exact ih h2

theorem dailyBreakdownAux_length (rate P : ℚ) (n : ℕ) (d : Date) :
    (InterestService.dailyBreakdownAux rate P n d).length = n := by
  induction n generalizing d with
  | zero => rfl
  | succ k ih => simp [InterestService.dailyBreakdownAux, ih]

theorem calculateInterestForDays_total (rate P : ℚ) (n : ℕ) (d : Date) :
    (InterestService.calculateInterestForDays rate P n d).1
      = (((InterestService.calculateInterestForDays rate P n d).2).map
          InterestCalculationResult.interestAmount).sum := by
  unfold InterestService.calculateInterestForDays
  refine toFixed4_eq_self (isMul4dp_sum ?_)
  intro q hq
  obtain ⟨r, hr, rfl⟩ := List.mem_map.mp hq
  obtain ⟨d', rfl⟩ := mem_dailyBreakdownAux hr
  exact toFixed4_isMul4dp _

/-! Order facts about the string comparison used for the lock key. -/

theorem strLt_asymm {a b : List Char} (h : strLt a b = true) : strLt b a = false := by
  induction a generalizing b with
  | nil =>
    cases b with
    | nil => simp [strLt] at h
    | cons y ys => rfl
  | cons x xs ih =>
    cases b with
    | nil => simp [strLt] at h
    | cons y ys =>
      rw [strLt] at h ⊢
      by_cases h1 : x.toNat < y.toNat
      · have h2 : ¬ y.toNat < x.toNat := Nat.lt_asymm h1
        simp [h1, h2]
      · by_cases h2 : y.toNat < x.toNat
        · simp [h1, h2] at h
        · simp [h1, h2] at h ⊢
          exact ih h

theorem strLt_eq_of_not_lt {a b : List Char} (hab : strLt a b = false)
    (hba : strLt b a = false) : a = b := by
  induction a generalizing b with
  | nil =>
    cases b with
    | nil => rfl
    | cons y ys => simp [strLt] at hab
  | cons x xs ih =>
    cases b with
    | nil => simp [strLt] at hba
    | cons y ys =>
      rw [strLt] at hab hba
      by_cases h1 : x.toNat < y.toNat
      · simp [h1] at hab
      · by_cases h2 : y.toNat < x.toNat
        · simp [h1, h2] at hba
        · have hx : x = y :=
            Char.eq_of_val_eq (UInt32.toNat.inj (by omega : x.toNat = y.toNat))
          simp [h1, h2] at hab hba
          rw [hx, ih hab hba]

theorem jsSortPair_comm (a b : String) : jsSortPair a b = jsSortPair b a := by
  by_cases h1 : strLt b.data a.data = true
  · have h2 := strLt_asymm h1
    simp [jsSortPair, h1, h2]
  · have h1' : strLt b.data a.data = false := by simpa using h1
    by_cases h2 : strLt a.data b.data = true
    · simp [jsSortPair, h1', h2]
    · have h2' : strLt a.data b.data = false := by simpa using h2
      have hd : a.data = b.data := strLt_eq_of_not_lt h2' h1'
      have hab : a = b := by
        cases a
        cases b
        exact congrArg String.mk hd
      rw [hab]

theorem lockKey_comm (a b : String) : lockKey a b = lockKey b a := by
  unfold lockKey
  rw [jsSortPair_comm]

/-- Appending rows does not change a lookup that already missed the head
rows (used for the accrual re-read after an insert). -/
theorem findAccrual_append {l1 : List InterestAccrualRow} (l2 : List InterestAccrualRow)
    {wid : String} {d : Date} (h : findAccrual l1 wid d = none) :
    findAccrual (l1 ++ l2) wid d = findAccrual l2 wid d := by
  induction l1 with
  | nil => rfl
  | cons a rest ih =>
    rw [findAccrual] at h
    rw [List.cons_append, findAccrual]
    by_cases ha : a.walletId = wid ∧ a.accrualDate = d
    · rw [if_pos ha] at h
      exact absurd h (by simp)
    · rw [if_neg ha] at h ⊢
      exact ih h

/-- C7: the leap-year rule is the proleptic Gregorian one (divisible by 4 and
not by 100, or divisible by 400), days-in-year is 366 for leap years and 365
otherwise, and the daily interest on principal 100000 at annual rate 0.275 is
75.1366 (rounded half away from zero at 4 places) on 2024-02-29 with
daysInYear = 366 and isLeapYear = true, and 75.3425 on 2023-06-15 with
daysInYear = 365. -/
theorem leap_year_and_daily_interest_c7 :
    (∀ y : ℕ, FinancialMath.isLeapYear y = true ↔ ((y % 4 = 0 ∧ y % 100 ≠ 0) ∨ y % 400 = 0))
    ∧ (∀ y : ℕ, FinancialMath.getDaysInYear y = if FinancialMath.isLeapYear y then 366 else 365)
    ∧ (InterestService.calculateDailyInterest (275/1000) 100000 ⟨2024, 2, 29⟩).daysInYear = 366
    ∧ (InterestService.calculateDailyInterest (275/1000) 100000 ⟨2024, 2, 29⟩).isLeapYear = true
    ∧ (InterestService.calculateDailyInterest (275/1000) 100000 ⟨2024, 2, 29⟩).interestAmount
        = 751366/10000
    ∧ (InterestService.calculateDailyInterest (275/1000) 100000 ⟨2023, 6, 15⟩).daysInYear = 365
    ∧ (InterestService.calculateDailyInterest (275/1000) 100000 ⟨2023, 6, 15⟩).interestAmount
        = 753425/10000 := by
  refine ⟨?_, fun y => rfl, ?_, ?_, ?_, ?_, ?_⟩
  · intro y
    simp [FinancialMath.isLeapYear]
  all_goals
    norm_num [InterestService.calculateDailyInterest, FinancialMath.toFixed4,
      FinancialMath.calculateDailyInterest, FinancialMath.calculateDailyRate,
      FinancialMath.getDaysInYear, FinancialMath.isLeapYear, roundHalfAwayFromZero]

/-- C8: a multi-day interest calculation over n days produces n
independently-dated daily records; each record's daysInYear and leap flag come
from that record's own calendar year; the returned total equals the sum of the
daily amounts; and the 10-day calculation starting 2023-12-27 yields
daysInYear 365 for its five 2023-dated records and 366 for its five 2024-dated
records within the same call. -/
theorem interest_multiday_c8 :
    (∀ (rate P : ℚ) (n : ℕ) (d : Date),
        ((InterestService.calculateInterestForDays rate P n d).2).length = n)
    ∧ (∀ (rate P : ℚ) (n : ℕ) (d : Date),
        ∀ r ∈ (InterestService.calculateInterestForDays rate P n d).2,
          r.daysInYear = FinancialMath.getDaysInYear r.accrualDate.year
          ∧ r.isLeapYear = FinancialMath.isLeapYear r.accrualDate.year)
    ∧ (∀ (rate P : ℚ) (n : ℕ) (d : Date),
        (InterestService.calculateInterestForDays rate P n d).1
          = (((InterestService.calculateInterestForDays rate P n d).2).map
              InterestCalculationResult.interestAmount).sum)
    ∧ ((InterestService.calculateInterestForDays (275/1000) 100000 10 ⟨2023, 12, 27⟩).2.map
        (fun r => (r.accrualDate.year, r.daysInYear)))
        = [(2023, 365), (2023, 365), (2023, 365), (2023, 365), (2023, 365),
           (2024, 366), (2024, 366), (2024, 366), (2024, 366), (2024, 366)] := by
  refine ⟨fun rate P n d => dailyBreakdownAux_length rate P n d, ?_,
    calculateInterestForDays_total, ?_⟩
  · intro rate P n d r hr
    obtain ⟨d', rfl⟩ := mem_dailyBreakdownAux hr
    exact ⟨rfl, rfl⟩
  · norm_num [InterestService.calculateInterestForDays, InterestService.dailyBreakdownAux,
      InterestService.calculateDailyInterest, FinancialMath.toFixed4,
      FinancialMath.calculateDailyInterest, FinancialMath.calculateDailyRate,
      FinancialMath.getDaysInYear, FinancialMath.isLeapYear, roundHalfAwayFromZero,
      Date.nextDay, Date.daysInMonth]

/-- Witness for C8 at a concrete input: the 10-day calculation starting
2023-12-27 has 10 day-records, its total is the sum of the daily amounts, and
its first record (dated 2023-12-27) uses that date's own days-in-year. -/
theorem interest_multiday_c8_witness :
    ((InterestService.calculateInterestForDays (275/1000) 100000 10 ⟨2023, 12, 27⟩).2).length = 10
    ∧ (InterestService.calculateInterestForDays (275/1000) 100000 10 ⟨2023, 12, 27⟩).1
        = (((InterestService.calculateInterestForDays (275/1000) 100000 10 ⟨2023, 12, 27⟩).2).map
            InterestCalculationResult.interestAmount).sum
    ∧ (InterestService.calculateDailyInterest (275/1000) 100000 ⟨2023, 12, 27⟩).daysInYear
        = FinancialMath.getDaysInYear
            (InterestService.calculateDailyInterest (275/1000) 100000
              ⟨2023, 12, 27⟩).accrualDate.year :=
  ⟨interest_multiday_c8.1 (275/1000) 100000 10 ⟨2023, 12, 27⟩,
   interest_multiday_c8.2.2.1 (275/1000) 100000 10 ⟨2023, 12, 27⟩,
   (interest_multiday_c8.2.1 (275/1000) 100000 10 ⟨2023, 12, 27⟩
      (InterestService.calculateDailyInterest (275/1000) 100000 ⟨2023, 12, 27⟩)
      (by rw [InterestService.calculateInterestForDays, InterestService.dailyBreakdownAux]
          exact List.mem_cons_self _ _)).1⟩

/-- C1: evaluating a transfer that completes with status COMPLETED (amount
100 from w1 holding 500 to w2 holding 200).  Exactly one DEBIT and one CREDIT
entry are written and their amounts equal the transfer amount, but — because
`fromWallet.update` mutates the in-memory instance before the ledger write
reads `fromWallet.balance` — both entries record `balanceBefore` equal to
`balanceAfter` (the post-transfer balances 400 and 300), so no entry
satisfies the claimed `balanceAfter + amount = balanceBefore` /
`balanceAfter - amount = balanceBefore` snapshot invariant. -/
theorem completed_transfer_ledger_snapshots_c1 :
    (transfer demoRequest demoState).1.status = .COMPLETED
    ∧ (transfer demoRequest demoState).2.db.ledger
        = [{ transactionLogId := 1, walletId := "w1", entryType := .DEBIT,
             amount := 100, balanceBefore := 400, balanceAfter := 400 },
           { transactionLogId := 1, walletId := "w2", entryType := .CREDIT,
             amount := 100, balanceBefore := 300, balanceAfter := 300 }]
    ∧ (∀ e ∈ (transfer demoRequest demoState).2.db.ledger, e.balanceBefore = e.balanceAfter)
    ∧ ¬ (∃ e ∈ (transfer demoRequest demoState).2.db.ledger,
          e.entryType = .DEBIT ∧ e.balanceAfter + e.amount = e.balanceBefore) := by
  have hstatus : (transfer demoRequest demoState).1.status = .COMPLETED := by
    norm_num [transfer, demoRequest, demoState, validateTransferRequest,
      show ((trimChars "k1".data).length = 0) = False from by decide,
      show ("w1" = "") = False from by decide,
      show ("w2" = "") = False from by decide,
      show ("w1" = "w2") = False from by decide,
      show ("w2" = "w1") = False from by decide,
      FinancialMath.isNegative, FinancialMath.isZero, FinancialMath.isGreaterThan,
      cacheGet, findLogByKey, findActiveWallet, transferTxBody,
      FinancialMath.toFixed4, roundHalfAwayFromZero, updateWalletBalance,
      markLogCompleted, markLogFailedWhere]
  have hledger : (transfer demoRequest demoState).2.db.ledger
      = [{ transactionLogId := 1, walletId := "w1", entryType := .DEBIT,
           amount := 100, balanceBefore := 400, balanceAfter := 400 },
         { transactionLogId := 1, walletId := "w2", entryType := .CREDIT,
           amount := 100, balanceBefore := 300, balanceAfter := 300 }] := by
    norm_num [transfer, demoRequest, demoState, validateTransferRequest,
      show ((trimChars "k1".data).length = 0) = False from by decide,
      show ("w1" = "") = False from by decide,
      show ("w2" = "") = False from by decide,
      show ("w1" = "w2") = False from by decide,
      show ("w2" = "w1") = False from by decide,
      FinancialMath.isNegative, FinancialMath.isZero, FinancialMath.isGreaterThan,
      cacheGet, findLogByKey, findActiveWallet, transferTxBody,
      FinancialMath.toFixed4, roundHalfAwayFromZero, updateWalletBalance,
      markLogCompleted, markLogFailedWhere]
  refine ⟨hstatus, hledger, ?_, ?_⟩
  · rw [hledger]
    intro e he
    rcases List.mem_cons.mp he with rfl | he2
    · rfl
    · rcases List.mem_singleton.mp he2 with rfl
      rfl
  · rw [hledger]
    rintro ⟨e, he, hty, heq⟩
    rcases List.mem_cons.mp he with rfl | he2
    · norm_num at heq
    · rcases List.mem_singleton.mp he2 with rfl
      exact EntryType.noConfusion hty

/-- C2: evaluating a transfer whose Phase-2 mutation fails after validation
passed (amount 100 from w1 holding only 50).  The call returns status FAILED
with an error detail, but because the PENDING TransactionLog row was created
inside the same rolled-back transaction, the database retains no
TransactionLog row at all: the failed transfer leaves no durably observable
record, contradicting the claimed Phase-1 durability. -/
theorem failed_transfer_leaves_no_log_c2 :
    (transfer overdraftRequest lowBalanceState).1.status = .FAILED
    ∧ (transfer overdraftRequest lowBalanceState).1.error = some "Insufficient balance"
    ∧ (transfer overdraftRequest lowBalanceState).2.db.txLogs = []
    ∧ ¬ (∃ l ∈ (transfer overdraftRequest lowBalanceState).2.db.txLogs,
          l.idempotencyKey = "k2") := by
  have hlogs : (transfer overdraftRequest lowBalanceState).2.db.txLogs = [] := by
    norm_num [transfer, overdraftRequest, lowBalanceState, validateTransferRequest,
      show ((trimChars "k2".data).length = 0) = False from by decide,
      show ("w1" = "") = False from by decide,
      show ("w2" = "") = False from by decide,
      show ("w1" = "w2") = False from by decide,
      FinancialMath.isNegative, FinancialMath.isZero, FinancialMath.isGreaterThan,
      cacheGet, findLogByKey, findActiveWallet, transferTxBody,
      markLogFailedWhere]
  refine ⟨?_, ?_, hlogs, ?_⟩
  · norm_num [transfer, overdraftRequest, lowBalanceState, validateTransferRequest,
      show ((trimChars "k2".data).length = 0) = False from by decide,
      show ("w1" = "") = False from by decide,
      show ("w2" = "") = False from by decide,
      show ("w1" = "w2") = False from by decide,
      FinancialMath.isNegative, FinancialMath.isZero, FinancialMath.isGreaterThan,
      cacheGet, findLogByKey, findActiveWallet, transferTxBody,
      markLogFailedWhere]
  · norm_num [transfer, overdraftRequest, lowBalanceState, validateTransferRequest,
      show ((trimChars "k2".data).length = 0) = False from by decide,
      show ("w1" = "") = False from by decide,
      show ("w2" = "") = False from by decide,
      show ("w1" = "w2") = False from by decide,
      FinancialMath.isNegative, FinancialMath.isZero, FinancialMath.isGreaterThan,
      cacheGet, findLogByKey, findActiveWallet, transferTxBody,
      markLogFailedWhere]
  · rw [hlogs]
    rintro ⟨l, hl, -⟩
    exact List.not_mem_nil l hl

/-- C3: calling `transfer` twice with the same request (idempotency key,
wallets and amount) from a state with no prior result for the key and a free
lock: the second call returns exactly the first call's result flagged as an
idempotent replay, and leaves the entire system state exactly as it was
after the first call — the balance mutation happened at most once, in the
first call. -/
theorem idempotent_replay_c3 (req : TransferRequest) (s : SysState)
    (hval : validateTransferRequest req = none)
    (hcache : cacheGet s.idemCache req.idempotencyKey = none)
    (hlog : findLogByKey s.db.txLogs req.idempotencyKey = none)
    (hlk : lockKey req.fromWalletId req.toWalletId ∉ s.locks) :
    transfer req (transfer req s).2
      = ({ (transfer req s).1 with isIdempotent := some true }, (transfer req s).2) := by
  have key : cacheGet (transfer req s).2.idemCache req.idempotencyKey
      = some (transfer req s).1 := by
    unfold transfer
    rw [hval, hcache, hlog]
    dsimp only
    rw [if_neg hlk]
    cases htx : (transferTxBody req s.db).outcome with
    | ok db' result => simp [cacheGet]
    | error msg => simp [cacheGet]
  obtain ⟨r1, s1, hp⟩ : ∃ r1 s1, transfer req s = (r1, s1) := ⟨_, _, rfl⟩
  rw [hp] at key ⊢
  unfold transfer
  rw [hval, key]

/-- Witness for C3: the replay property at the concrete w1 → w2 transfer of
100 from a fresh state. -/
theorem idempotent_replay_c3_witness :
    transfer demoRequest (transfer demoRequest demoState).2
      = ({ (transfer demoRequest demoState).1 with isIdempotent := some true },
         (transfer demoRequest demoState).2) :=
  idempotent_replay_c3 demoRequest demoState (by decide) rfl rfl (by simp [demoState])

/-- C4: a transfer whose source wallet balance is strictly below the amount
ends with a FAILED result carrying an error detail, returned as a value
rather than an exception (the embedded `transfer` is a total function), and
leaves every wallet balance unchanged; a transfer whose balance exactly
equals the amount is not rejected by the balance check and completes. -/
theorem insufficient_balance_c4 (req : TransferRequest) (s : SysState) (fw tw : Wallet)
    (hval : validateTransferRequest req = none)
    (hcache : cacheGet s.idemCache req.idempotencyKey = none)
    (hlog : findLogByKey s.db.txLogs req.idempotencyKey = none)
    (hlk : lockKey req.fromWalletId req.toWalletId ∉ s.locks)
    (hfw : findActiveWallet s.db.wallets req.fromWalletId = some fw)
    (htw : findActiveWallet s.db.wallets req.toWalletId = some tw) :
    (fw.balance < req.amount →
      (transfer req s).1.status = .FAILED
      ∧ (transfer req s).1.success = false
      ∧ (transfer req s).1.error = some "Insufficient balance"
      ∧ (transfer req s).2.db.wallets = s.db.wallets)
    ∧ (fw.balance = req.amount → (transfer req s).1.status = .COMPLETED) := by
  unfold transfer
  rw [hval, hcache, hlog]
  dsimp only
  rw [if_neg hlk]
  unfold transferTxBody
  dsimp only
  rw [hfw]
  dsimp only
  rw [htw]
  dsimp only
  constructor
  · intro hlt
    have hgt : FinancialMath.isGreaterThan req.amount fw.balance = true := by
      simp [FinancialMath.isGreaterThan]
      exact hlt
    rw [hgt]
    exact ⟨rfl, rfl, rfl, rfl⟩
  · intro heq
    have hgt : FinancialMath.isGreaterThan req.amount fw.balance = false := by
      simp [FinancialMath.isGreaterThan, heq]
    rw [hgt]
    rfl

/-- Witness for C4: the concrete insufficient-funds transfer (balance 50,
amount 100) fails with both balances intact, and a transfer of the full
balance 50 completes. -/
theorem insufficient_balance_c4_witness :
    ((transfer overdraftRequest lowBalanceState).1.status = .FAILED
      ∧ (transfer overdraftRequest lowBalanceState).2.db.wallets
          = lowBalanceState.db.wallets)
    ∧ (transfer { overdraftRequest with amount := 50 } lowBalanceState).1.status
        = .COMPLETED := by
  have h := insufficient_balance_c4 overdraftRequest lowBalanceState
    { id := "w1", balance := 50, isActive := true }
    { id := "w2", balance := 20, isActive := true }
    (by decide) rfl rfl (by simp [lowBalanceState]) (by decide) (by decide)
  have h2 := insufficient_balance_c4 { overdraftRequest with amount := 50 } lowBalanceState
    { id := "w1", balance := 50, isActive := true }
    { id := "w2", balance := 20, isActive := true }
    (by decide) rfl rfl (by simp [lowBalanceState]) (by decide) (by decide)
  exact ⟨⟨(h.1 (by norm_num [overdraftRequest])).1,
    (h.1 (by norm_num [overdraftRequest])).2.2.2⟩, h2.2 (by norm_num [overdraftRequest])⟩

/-- C5 counterexample: Phase 2 does not lock the wallet rows in the sorted
order of their identities.  For the transfer b → a over wallets a and b, the
rows are locked in the order [b, a] while the sorted pair is [a, b], and the
opposite-direction transfer a → b locks them in the opposite order. -/
theorem row_lock_order_c5_counterexample :
    (transferTxBody reverseRequest pairDB).rowLockOrder = ["b", "a"]
    ∧ jsSortPair "b" "a" = ["a", "b"]
    ∧ (transferTxBody reverseRequest pairDB).rowLockOrder ≠ jsSortPair "b" "a"
    ∧ (transferTxBody reverseRequest pairDB).rowLockOrder
        ≠ (transferTxBody forwardRequest pairDB).rowLockOrder := by
  refine ⟨?_, by decide, ?_, ?_⟩ <;>
    simp +decide [transferTxBody, reverseRequest, forwardRequest, pairDB, findActiveWallet,
      FinancialMath.isGreaterThan, jsSortPair, strLt]

/-- C5 amended: within Phase 2 the wallet rows are re-fetched and exclusively
locked in source-first, destination-second order — deterministic for a given
request but direction-dependent, not the sorted order of identities.  The
sorted, direction-independent ordering is applied to the coordination lock
key instead, so opposite-direction transfers on the same pair contend on the
same external lock (which is what serializes them). -/
theorem row_lock_order_c5_amended (req : TransferRequest) (db : DBState) (fw tw : Wallet)
    (hf : findActiveWallet db.wallets req.fromWalletId = some fw)
    (ht : findActiveWallet db.wallets req.toWalletId = some tw) :
    (transferTxBody req db).rowLockOrder = [req.fromWalletId, req.toWalletId]
    ∧ lockKey req.fromWalletId req.toWalletId
        = lockKey req.toWalletId req.fromWalletId := by
  constructor
  · unfold transferTxBody
    dsimp only
    rw [hf]
    dsimp only
    rw [ht]
    dsimp only
    split <;> rfl
  · exact lockKey_comm _ _

/-- Witness for C5 amended: the b → a transfer locks rows in [b, a] order and
its coordination lock key is direction-independent. -/
theorem row_lock_order_c5_amended_witness :
    (transferTxBody reverseRequest pairDB).rowLockOrder = ["b", "a"]
    ∧ lockKey "b" "a" = lockKey "a" "b" :=
  row_lock_order_c5_amended reverseRequest pairDB
    { id := "b", balance := 10, isActive := true }
    { id := "a", balance := 10, isActive := true }
    (by decide) (by decide)

/-- C6: a validated transfer with no prior result for its key that fails to
acquire the wallet-pair coordination lock returns the CONCURRENT_REQUEST
conflict outcome with status PENDING — distinguishable from the terminal
FAILED status — and changes nothing: no TransactionLog row, no ledger entry,
no balance mutation (the whole state is untouched). -/
theorem concurrent_conflict_c6 (req : TransferRequest) (s : SysState)
    (hval : validateTransferRequest req = none)
    (hcache : cacheGet s.idemCache req.idempotencyKey = none)
    (hlog : findLogByKey s.db.txLogs req.idempotencyKey = none)
    (hlk : lockKey req.fromWalletId req.toWalletId ∈ s.locks) :
    (transfer req s).1.error = some "CONCURRENT_REQUEST"
    ∧ (transfer req s).1.status = .PENDING
    ∧ (transfer req s).1.status ≠ .FAILED
    ∧ (transfer req s).2 = s := by
  unfold transfer
  rw [hval, hcache, hlog]
  dsimp only
  rw [if_pos hlk]
  exact ⟨rfl, rfl, fun h => TransactionStatus.noConfusion h, rfl⟩

/-- Witness for C6: the concrete w1 → w2 transfer against a state whose
(w1, w2) pair lock is already held. -/
theorem concurrent_conflict_c6_witness :
    (transfer demoRequest lockedState).1.error = some "CONCURRENT_REQUEST"
    ∧ (transfer demoRequest lockedState).1.status = .PENDING
    ∧ (transfer demoRequest lockedState).2 = lockedState :=
  let h := concurrent_conflict_c6 demoRequest lockedState (by decide) rfl rfl
    (by simp [lockedState, demoState, demoRequest])
  ⟨h.1, h.2.1, h.2.2.2⟩

/-- C9: accrual is idempotent per (wallet, accrual date): whenever
`accrueInterestForWallet` returns a record, calling it again for the same
wallet and date returns the same record values and leaves the accrual table
unchanged (no second row); and for a missing wallet, an inactive wallet, or
a zero/negative balance the call records nothing and returns nothing. -/
theorem accrual_idempotent_c9 (rate : ℚ) (wid : String) (d : Date) (s : InterestState) :
    ((accrueInterestForWallet rate wid d s).1 ≠ none →
      accrueInterestForWallet rate wid d (accrueInterestForWallet rate wid d s).2
        = accrueInterestForWallet rate wid d s)
    ∧ (findWalletByPk s.wallets wid = none →
        accrueInterestForWallet rate wid d s = (none, s))
    ∧ (∀ w, findWalletByPk s.wallets wid = some w →
        (w.isActive = false ∨ w.balance ≤ 0) →
        accrueInterestForWallet rate wid d s = (none, s)) := by
  refine ⟨?_, ?_, ?_⟩
  · intro hsome
    cases hw : findWalletByPk s.wallets wid with
    | none =>
      exfalso
      apply hsome
      unfold accrueInterestForWallet
      rw [hw]
    | some w =>
      by_cases hact : w.isActive = false
      · exfalso
        apply hsome
        unfold accrueInterestForWallet
        rw [hw]
        dsimp only
        rw [if_pos hact]
      · by_cases hbal :
          (FinancialMath.isNegative w.balance || FinancialMath.isZero w.balance) = true
        · exfalso
          apply hsome
          unfold accrueInterestForWallet
          rw [hw]
          dsimp only
          rw [if_neg hact, if_pos hbal]
        · cases hex : findAccrual s.accruals wid d with
          | some ex =>
            have h1 : accrueInterestForWallet rate wid d s = (some ex.toResult, s) := by
              unfold accrueInterestForWallet
              rw [hw]
              dsimp only
              rw [if_neg hact, if_neg hbal, hex]
            rw [h1]
            exact h1
          | none =>
            have h1 : accrueInterestForWallet rate wid d s
                = (some { InterestService.calculateDailyInterest rate w.balance d with
                            walletId := wid },
                   { s with accruals := s.accruals ++
                      [{ walletId := wid
                         principalAmount :=
                           (InterestService.calculateDailyInterest rate w.balance d).principalAmount
                         interestAmount :=
                           (InterestService.calculateDailyInterest rate w.balance d).interestAmount
                         annualRate :=
                           (InterestService.calculateDailyInterest rate w.balance d).annualRate
                         dailyRate :=
                           (InterestService.calculateDailyInterest rate w.balance d).dailyRate
                         accrualDate := d
                         daysInYear :=
                           (InterestService.calculateDailyInterest rate w.balance d).daysInYear
                         isLeapYear :=
                           (InterestService.calculateDailyInterest rate w.balance d).isLeapYear
                         isApplied := false }] }) := by
              unfold accrueInterestForWallet
              rw [hw]
              dsimp only
              rw [if_neg hact, if_neg hbal, hex]
              rfl
            rw [h1]
            unfold accrueInterestForWallet
            dsimp only
            rw [hw]
            dsimp only
            rw [if_neg hact, if_neg hbal, findAccrual_append _ hex]
            rw [findAccrual]
            rw [if_pos ⟨rfl, rfl⟩]
            rfl
  · intro hw
    unfold accrueInterestForWallet
    rw [hw]
  · intro w hw hskip
    unfold accrueInterestForWallet
    rw [hw]
    dsimp only
    by_cases hact : w.isActive = false
    · rw [if_pos hact]
    · rw [if_neg hact]
      have hbal : w.balance ≤ 0 := by
        rcases hskip with hact' | hbal
        · exact absurd hact' hact
        · exact hbal
      have hcheck :
          (FinancialMath.isNegative w.balance || FinancialMath.isZero w.balance) = true := by
        rcases lt_or_eq_of_le hbal with hlt | heq
        · simp [FinancialMath.isNegative, hlt]
        · simp [FinancialMath.isZero, heq]
      rw [if_pos hcheck]

/-- Witness for C9: the second accrual call for wallet w1 on 2023-06-15
returns the first call's record with no new row, and the inactive wallet w3
records nothing. -/
theorem accrual_idempotent_c9_witness :
    accrueInterestForWallet (275/1000) "w1" ⟨2023, 6, 15⟩
        (accrueInterestForWallet (275/1000) "w1" ⟨2023, 6, 15⟩ accrualState).2
      = accrueInterestForWallet (275/1000) "w1" ⟨2023, 6, 15⟩ accrualState
    ∧ accrueInterestForWallet (275/1000) "w3" ⟨2023, 6, 15⟩ accrualState
        = (none, accrualState) :=
  ⟨(accrual_idempotent_c9 (275/1000) "w1" ⟨2023, 6, 15⟩ accrualState).1
      (by
        norm_num [accrualState, accrueInterestForWallet, findWalletByPk, findAccrual,
          FinancialMath.isNegative, FinancialMath.isZero]
        exact fun h => Option.noConfusion h),
   (accrual_idempotent_c9 (275/1000) "w3" ⟨2023, 6, 15⟩ accrualState).2.2
      { id := "w3", balance := 100, isActive := false } (by decide) (Or.inl rfl)⟩

/-- C10: a transfer rejected by input validation returns a failed result with
no transaction identity and no idempotent-replay flag, stores nothing
anywhere (the whole state is untouched), and therefore a later call with the
same idempotency key executes against the original state as a fresh
operation rather than replaying the validation failure. -/
theorem validation_failure_c10 (req : TransferRequest) (err : String) (s : SysState)
    (hval : validateTransferRequest req = some err) :
    (transfer req s).1.success = false
    ∧ (transfer req s).1.transactionId = none
    ∧ (transfer req s).1.isIdempotent = none
    ∧ (transfer req s).1.status = .FAILED
    ∧ (transfer req s).2 = s
    ∧ ∀ req2 : TransferRequest, transfer req2 (transfer req s).2 = transfer req2 s := by
  unfold transfer
  rw [hval]
  exact ⟨rfl, rfl, rfl, rfl, rfl, fun _ => rfl⟩

/-- Witness for C10: the blank-idempotency-key request against the fresh
demo state. -/
theorem validation_failure_c10_witness :
    (transfer blankKeyRequest demoState).1.success = false
    ∧ (transfer blankKeyRequest demoState).1.transactionId = none
    ∧ (transfer blankKeyRequest demoState).1.isIdempotent = none
    ∧ (transfer blankKeyRequest demoState).2 = demoState :=
  let h := validation_failure_c10 blankKeyRequest "Idempotency key is required" demoState
    (by decide)
  ⟨h.1, h.2.1, h.2.2.1, h.2.2.2.2.1⟩

end Sycamore
